import Mathlib

/-!
Shallow embedding of the todo-service persistence layer
(`internal/db/db.go` together with the request/response types of
`internal/model`).  The SQLite store is modelled as an explicit state:
a list of rows plus the AUTOINCREMENT counter.  Timestamps are modelled
at the boundary the Go code observes them: a stored timestamp column is
the ISO-8601 text the SELECT's strftime produces, and `datetime('now')`
is the formatted current time, passed in as the `now : String` parameter
of each mutating operation.  `time.Parse(time.RFC3339, s)` with its
error discarded becomes `parseTimeRFC3339 : String → Option String`,
where `none` is Go's zero `time.Time`.
-/

namespace TodoService

/-- Enumeration constants of `internal/model` (`Status` and `Category`
are Go string types, so they embed as `String`). -/
def StatusPending : String := "pending"

def CategoryPersonal : String := "personal"

/-- Decimal digit test used by the RFC-3339 shape check. -/
def digitVal (c : Char) : Nat := c.toNat - 48

/-- Shape check for the exact text form `YYYY-MM-DDTHH:MM:SSZ` that
`strftime(\x27%Y-%m-%dT%H:%M:%SZ\x27, ...)` emits, with the basic field
ranges Go's `time.Parse` enforces.  This models which strings
`time.Parse(time.RFC3339, s)` accepts on the read path. -/
def isRFC3339 (s : String) : Bool :=
  match s.toList with
  | [y1, y2, y3, y4, '-', m1, m2, '-', d1, d2, 'T',
     h1, h2, ':', n1, n2, ':', s1, s2, 'Z'] =>
      ([y1, y2, y3, y4, m1, m2, d1, d2, h1, h2, n1, n2, s1, s2].all (·.isDigit))
      && (1 ≤ 10 * digitVal m1 + digitVal m2 && 10 * digitVal m1 + digitVal m2 ≤ 12)
      && (1 ≤ 10 * digitVal d1 + digitVal d2 && 10 * digitVal d1 + digitVal d2 ≤ 31)
      && (10 * digitVal h1 + digitVal h2 ≤ 23)
      && (10 * digitVal n1 + digitVal n2 ≤ 59)
      && (10 * digitVal s1 + digitVal s2 ≤ 59)
  | _ => false

/-- Model of `t.CreatedAt, _ = time.Parse(time.RFC3339, s)`: the parse
error is discarded, so a failing parse leaves the zero timestamp,
modelled as `none`. -/
def parseTimeRFC3339 (s : String) : Option String :=
  if isRFC3339 s then some s else none

/-- Domain record `model.Todo`.  `createdAt`/`updatedAt` are the parsed
timestamps; `none` is Go's zero `time.Time`. -/
structure Todo where
  id : Int
  title : String
  description : String
  status : String
  category : String
  progressPercent : Int
  createdAt : Option String
  updatedAt : Option String
  deriving DecidableEq

/-- One row of the `todos` table.  The timestamp columns hold the
ISO-formatted text the SELECTs hand to Go. -/
structure Row where
  id : Int
  title : String
  description : String
  status : String
  category : String
  progress_percent : Int
  created_at : String
  updated_at : String
  deriving DecidableEq

/-- The SQLite store state: the physical rows of `todos` plus the
AUTOINCREMENT counter (last id ever assigned; ids are never reused). -/
structure DB where
  rows : List Row
  seq : Int
  deriving DecidableEq

/-- Payload `model.CreateTodoRequest`: `status`/`category` are bare Go
strings whose zero value `""` marks absence; `progressPercent` is a
pointer, so absence is `none`. -/
structure CreateTodoRequest where
  title : String
  description : String
  status : String
  category : String
  progressPercent : Option Int
  deriving DecidableEq

/-- Payload `model.UpdateTodoRequest`: every field is a pointer, so
absence is `none`. -/
structure UpdateTodoRequest where
  title : Option String
  description : Option String
  status : Option String
  category : Option String
  progressPercent : Option Int
  deriving DecidableEq

/-- Errors of the repository: `db.ErrNotFound` or a wrapped store error. -/
inductive DbError where
  | notFound : DbError
  | persistence : String → DbError
  deriving DecidableEq

/-- A positional SQL argument (`args = append(args, ...)`). -/
inductive SqlArg where
  | str : String → SqlArg
  | int : Int → SqlArg
  deriving DecidableEq

/-- Row lookup `WHERE id = ?` (the primary key selects at most one row). -/
def findRow (db : DB) (id : Int) : Option Row :=
  db.rows.find? (fun r => r.id == id)

/-- Mapping a scanned row to a `model.Todo`, as `scanTodo` and the
`ListTodos` loop body do: enum columns copied through, timestamps
parsed with the error discarded. -/
def rowToTodo (r : Row) : Todo :=
  { id := r.id
    title := r.title
    description := r.description
    status := r.status
    category := r.category
    progressPercent := r.progress_percent
    createdAt := parseTimeRFC3339 r.created_at
    updatedAt := parseTimeRFC3339 r.updated_at }

/-- `GetTodo`: single-row lookup; `sql.ErrNoRows` becomes `ErrNotFound`
in `scanTodo`. -/
def GetTodo (db : DB) (id : Int) : Except DbError Todo :=
  match findRow db id with
  | none => .error .notFound
  | some r => .ok (rowToTodo r)

/-- `CreateTodo`: defaults for absent fields, INSERT (the store assigns
`id = seq + 1` and fills both timestamp columns from the same
`datetime(\x27now\x27)` default), then re-read via `GetTodo`. -/
def CreateTodo (db : DB) (now : String) (req : CreateTodoRequest) :
    Except DbError Todo × DB :=
  let status := if req.status != "" then req.status else StatusPending
  let category := if req.category != "" then req.category else CategoryPersonal
  let progress := match req.progressPercent with
    | some p => p
    | none => 0
  let id := db.seq + 1
  let row : Row :=
    { id := id
      title := req.title
      description := req.description
      status := status
      category := category
      progress_percent := progress
      created_at := now
      updated_at := now }
  let db2 : DB := { rows := db.rows ++ [row], seq := id }
  (GetTodo db2 id, db2)

/-- Number of positional placeholders in a statement text. -/
def countPlaceholders (s : String) : Nat :=
  s.toList.countP (fun c => c == '?')

/-- Filter predicate of `ListTodos`: the semantics of joining the
present `status = ?` / `category = ?` conditions with `AND`. -/
def rowMatches (status category : Option String) (r : Row) : Bool :=
  (match status with
   | some s => r.status == s
   | none => true)
  && (match category with
      | some c => r.category == c
      | none => true)

/-- Condition clauses `ListTodos` appends, one per present filter. -/
def listConditions (status category : Option String) : List String :=
  (if status.isSome then ["status = ?"] else [])
  ++ (if category.isSome then ["category = ?"] else [])

/-- Positional arguments `ListTodos` appends alongside the conditions. -/
def listArgs (status category : Option String) : List SqlArg :=
  (match status with
   | some s => [SqlArg.str s]
   | none => [])
  ++ (match category with
      | some c => [SqlArg.str c]
      | none => [])

/-- Base SELECT text of `ListTodos` (whitespace normalised). -/
def listBaseQuery : String :=
  "SELECT id, title, description, status, category, progress_percent, strftime(\x27%Y-%m-%dT%H:%M:%SZ\x27, created_at), strftime(\x27%Y-%m-%dT%H:%M:%SZ\x27, updated_at) FROM todos"

/-- Full statement text `ListTodos` executes. -/
def listQuery (status category : Option String) : String :=
  let conds := listConditions status category
  let q := listBaseQuery
  let q := if conds.length > 0 then q ++ " WHERE " ++ String.intercalate (" AND ") conds else q
  q ++ " ORDER BY id ASC"

/-- Sorting by ascending id: the semantics of `ORDER BY id ASC`. -/
def rowLe (a b : Row) : Prop := a.id ≤ b.id

instance rowLe.decRel : DecidableRel rowLe :=
  fun a b => inferInstanceAs (Decidable (a.id ≤ b.id))

instance rowLe.total : IsTotal Row rowLe := ⟨fun a b => Int.le_total a.id b.id⟩

instance rowLe.trans : IsTrans Row rowLe := ⟨fun _ _ _ hab hbc => le_trans hab hbc⟩

/-- Result of the SELECT: matching rows in ascending-id order. -/
def queryRows (db : DB) (status category : Option String) : List Row :=
  List.insertionSort rowLe (db.rows.filter (rowMatches status category))

/-- Scan loop of `ListTodos`: `var todos []model.Todo` starts as the nil
slice (`none`); each iteration appends, making it non-nil. -/
def listScanLoop : List Row → Option (List Todo) → Option (List Todo)
  | [], acc => acc
  | r :: rs, acc => listScanLoop rs (some (acc.getD [] ++ [rowToTodo r]))

/-- `ListTodos`: run the filtered ordered query, scan each row, and
replace a nil slice by the empty slice
(`if todos == nil { todos = []model.Todo{} }`). -/
def ListTodos (db : DB) (status category : Option String) : List Todo :=
  match listScanLoop (queryRows db status category) none with
  | none => []
  | some todos => todos

/-- SET clauses `UpdateTodo` appends, one per present field. -/
def updateSetClauses (req : UpdateTodoRequest) : List String :=
  (if req.title.isSome then ["title = ?"] else [])
  ++ (if req.description.isSome then ["description = ?"] else [])
  ++ (if req.status.isSome then ["status = ?"] else [])
  ++ (if req.category.isSome then ["category = ?"] else [])
  ++ (if req.progressPercent.isSome then ["progress_percent = ?"] else [])

/-- Positional arguments `UpdateTodo` appends alongside the SET clauses. -/
def updateArgs (req : UpdateTodoRequest) : List SqlArg :=
  (match req.title with
   | some v => [SqlArg.str v]
   | none => [])
  ++ (match req.description with
      | some v => [SqlArg.str v]
      | none => [])
  ++ (match req.status with
      | some v => [SqlArg.str v]
      | none => [])
  ++ (match req.category with
      | some v => [SqlArg.str v]
      | none => [])
  ++ (match req.progressPercent with
      | some v => [SqlArg.int v]
      | none => [])

/-- The unconditional trailing clause `updated_at = datetime(\x27now\x27)`. -/
def updatedAtClause : String := "updated_at = datetime(\x27now\x27)"

/-- Full statement text `UpdateTodo` executes (after appending the
`updated_at` clause). -/
def updateQuery (req : UpdateTodoRequest) : String :=
  "UPDATE todos SET "
    ++ String.intercalate (", ") (updateSetClauses req ++ [updatedAtClause])
    ++ " WHERE id = ?"

/-- Full positional argument list of the UPDATE (after appending `id`). -/
def updateExecArgs (req : UpdateTodoRequest) (id : Int) : List SqlArg :=
  updateArgs req ++ [SqlArg.int id]

/-- Effect of executing the built UPDATE on one matched row: present
fields are assigned, absent fields untouched, `updated_at` refreshed. -/
def applyUpdate (req : UpdateTodoRequest) (now : String) (r : Row) : Row :=
  { r with
    title := req.title.getD r.title
    description := req.description.getD r.description
    status := req.status.getD r.status
    category := req.category.getD r.category
    progress_percent := req.progressPercent.getD r.progress_percent
    updated_at := now }

/-- Row list produced by executing the built UPDATE (`rows2` in the
proof development; the Go code runs `r.db.Exec(query, args...)`). -/
def updatedRows (db : DB) (now : String) (id : Int) (req : UpdateTodoRequest) : List Row :=
  db.rows.map (fun r => if r.id == id then applyUpdate req now r else r)

/-- `UpdateTodo`: with no supplied fields, a pure re-read; otherwise
execute the UPDATE, check the affected-row count
(`db.rows.countP (fun r => r.id == id)` — no pre-check), and re-read on
success. -/
def UpdateTodo (db : DB) (now : String) (id : Int) (req : UpdateTodoRequest) :
    Except DbError Todo × DB :=
  if updateSetClauses req = [] then
    (GetTodo db id, db)
  else
    if db.rows.countP (fun r => r.id == id) = 0 then
      (.error .notFound, { db with rows := updatedRows db now id req })
    else
      (GetTodo { db with rows := updatedRows db now id req } id,
        { db with rows := updatedRows db now id req })

/-- `DeleteTodo`: execute the DELETE, then check the affected-row count. -/
def DeleteTodo (db : DB) (id : Int) : Except DbError Unit × DB :=
  if db.rows.countP (fun r => r.id == id) = 0 then
    (.error .notFound, { db with rows := db.rows.filter (fun r => !(r.id == id)) })
  else
    (.ok (), { db with rows := db.rows.filter (fun r => !(r.id == id)) })

/-- One column of the live schema as `PRAGMA table_info` reports it,
with the default value and enum CHECK recorded for the additive step. -/
structure ColumnDef where
  colName : String
  colType : String
  colDefault : Option String
  colEnumCheck : List String
  deriving DecidableEq

/-- Live schema state of the store: whether `todos` exists, its column
catalog, and the created index names. -/
structure Schema where
  tableExists : Bool
  columns : List ColumnDef
  indexes : List String
  deriving DecidableEq

/-- Original column set of the base `CREATE TABLE IF NOT EXISTS todos`. -/
def baseColumns : List ColumnDef :=
  [ { colName := "id", colType := "INTEGER", colDefault := none, colEnumCheck := [] }
  , { colName := "title", colType := "TEXT", colDefault := none, colEnumCheck := [] }
  , { colName := "description", colType := "TEXT", colDefault := some (""), colEnumCheck := [] }
  , { colName := "status", colType := "TEXT", colDefault := some ("pending")
    , colEnumCheck := ["pending", "in_progress", "done"] }
  , { colName := "progress_percent", colType := "INTEGER", colDefault := some ("0")
    , colEnumCheck := [] }
  , { colName := "created_at", colType := "DATETIME", colDefault := some ("datetime(\x27now\x27)")
    , colEnumCheck := [] }
  , { colName := "updated_at", colType := "DATETIME", colDefault := some ("datetime(\x27now\x27)")
    , colEnumCheck := [] } ]

/-- The column the additive migration introduces:
`category TEXT NOT NULL DEFAULT \x27personal\x27 CHECK(category IN (\x27personal\x27, \x27work\x27, \x27other\x27))`. -/
def categoryColumn : ColumnDef :=
  { colName := "category", colType := "TEXT", colDefault := some ("personal")
  , colEnumCheck := ["personal", "work", "other"] }

/-- `CREATE TABLE IF NOT EXISTS`: a no-op when the table exists. -/
def execCreateTable (s : Schema) : Schema :=
  if s.tableExists then s
  else { s with tableExists := true, columns := baseColumns }

/-- `CREATE INDEX IF NOT EXISTS`: a no-op when the index exists. -/
def execCreateIndex (s : Schema) (name : String) : Schema :=
  if name ∈ s.indexes then s else { s with indexes := s.indexes ++ [name] }

/-- `ALTER TABLE ... ADD COLUMN`: unconditional, so it fails when a
column of that name already exists. -/
def execAddColumn (s : Schema) (c : ColumnDef) : Except DbError Schema :=
  if c.colName ∈ s.columns.map (fun d => d.colName) then
    .error (.persistence ("duplicate column name"))
  else .ok { s with columns := s.columns ++ [c] }

/-- `addCategoryColumn`: inspect the live column catalog
(`PRAGMA table_info(todos)`); if `category` is present, no-op, else add
the column and create its supporting index. -/
def addCategoryColumn (s : Schema) : Except DbError Schema :=
  if "category" ∈ s.columns.map (fun d => d.colName) then .ok s
  else
    match execAddColumn s categoryColumn with
    | .error e => .error e
    | .ok s2 => .ok (execCreateIndex s2 ("idx_todos_category"))

/-- `Migrate`: base schema statement (table plus status index), then the
additive category step. -/
def Migrate (s : Schema) : Except DbError Schema :=
  let s1 := execCreateTable s
  let s2 := execCreateIndex s1 ("idx_todos_status")
  addCategoryColumn s2

/-! ### Helper lemmas -/

theorem applyUpdate_id (req : UpdateTodoRequest) (now : String) (r : Row) :
    (applyUpdate req now r).id = r.id := rfl

theorem applyUpdate_created_at (req : UpdateTodoRequest) (now : String) (r : Row) :
    (applyUpdate req now r).created_at = r.created_at := rfl

/-- Looking up `id` after the UPDATE's row transformation finds the
transformed row, provided the transformation preserves ids. -/
theorem find?_map_ite (rows : List Row) (id : Int) (f : Row → Row)
    (hf : ∀ r, (f r).id = r.id) :
    ((rows.map fun r => if r.id == id then f r else r).find? (fun r => r.id == id))
      = (rows.find? (fun r => r.id == id)).map
          (fun r => if r.id == id then f r else r) := by
  induction rows with
  | nil => rfl
  | cons r rs ih =>
    by_cases h : (r.id == id) = true
    · have hg : (if (r.id == id) = true then f r else r) = f r := if_pos h
      have hfr : ((f r).id == id) = true := by rw [hf]; exact h
      rw [List.map_cons, hg, List.find?_cons_of_pos, List.find?_cons_of_pos]
      · show some (f r) = some (if (r.id == id) = true then f r else r)
        rw [hg]
      · exact h
      · exact hfr
    · have hg : (if (r.id == id) = true then f r else r) = r := if_neg h
      rw [List.map_cons, hg, List.find?_cons_of_neg, List.find?_cons_of_neg, ih]
      · exact h
      · exact h

/-- A zero affected-row count is exactly a missing target row. -/
theorem countP_eq_zero_iff_find?_none (rows : List Row) (id : Int) :
    rows.countP (fun r => r.id == id) = 0
      ↔ rows.find? (fun r => r.id == id) = none := by
  rw [List.countP_eq_zero, List.find?_eq_none]

/-- When no row matches, the UPDATE's row transformation is the identity. -/
theorem map_ite_eq_self (rows : List Row) (id : Int) (f : Row → Row)
    (h : ∀ r ∈ rows, (r.id == id) = false) :
    (rows.map fun r => if r.id == id then f r else r) = rows := by
  induction rows with
  | nil => rfl
  | cons r rs ih =>
    have h1 := h r (by simp)
    simp only [List.map_cons, h1, if_neg]
    rw [ih fun x hx => h x (by simp [hx])]
    simp [h1]

/-- When no row matches, the DELETE's filter is the identity. -/
theorem filter_ne_eq_self (rows : List Row) (id : Int)
    (h : ∀ r ∈ rows, (r.id == id) = false) :
    (rows.filter fun r => !(r.id == id)) = rows :=
  List.filter_eq_self.mpr fun r hr => by simp [h r hr]

/-- The scan loop appends one `Todo` per row to the accumulator. -/
theorem listScanLoop_getD (rs : List Row) (acc : Option (List Todo)) :
    (listScanLoop rs acc).getD [] = acc.getD [] ++ rs.map rowToTodo := by
  induction rs generalizing acc with
  | nil => simp [listScanLoop]
  | cons r rs ih => simp [listScanLoop, ih]

/-- `ListTodos` is the row-mapped, id-ordered, filtered row list: the
nil-slice replacement makes the result a plain (never-null) list. -/
theorem ListTodos_eq_map (db : DB) (status category : Option String) :
    ListTodos db status category = (queryRows db status category).map rowToTodo := by
  have h := listScanLoop_getD (queryRows db status category) none
  unfold ListTodos
  cases hl : listScanLoop (queryRows db status category) none with
  | none => simpa [hl] using h
  | some todos => simpa [hl] using h

/-- Zero supplied fields is exactly the all-`none` request. -/
theorem updateSetClauses_eq_nil_iff (req : UpdateTodoRequest) :
    updateSetClauses req = [] ↔ req = ⟨none, none, none, none, none⟩ := by
  obtain ⟨t, d, s, c, p⟩ := req
  cases t <;> cases d <;> cases s <;> cases c <;> cases p <;>
    simp [updateSetClauses]

/-- `GetTodo` reduced by a successful row lookup. -/
theorem GetTodo_eq_ok (db : DB) (id : Int) (r : Row)
    (h : db.rows.find? (fun x => x.id == id) = some r) :
    GetTodo db id = .ok (rowToTodo r) := by
  unfold GetTodo findRow
  rw [h]

/-- `GetTodo` reduced by a failed row lookup. -/
theorem GetTodo_eq_notFound (db : DB) (id : Int)
    (h : db.rows.find? (fun x => x.id == id) = none) :
    GetTodo db id = .error .notFound := by
  unfold GetTodo findRow
  rw [h]

/-- Behaviour of `UpdateTodo` when the target row exists and at least
one field is supplied: the UPDATE rewrites exactly the target row and
the operation re-reads it. -/
theorem UpdateTodo_found (db : DB) (now : String) (id : Int)
    (req : UpdateTodoRequest) (r0 : Row)
    (h : findRow db id = some r0) (hc : updateSetClauses req ≠ []) :
    findRow (UpdateTodo db now id req).2 id = some (applyUpdate req now r0)
    ∧ (UpdateTodo db now id req).1 = .ok (rowToTodo (applyUpdate req now r0))
    ∧ (UpdateTodo db now id req).2.rows = updatedRows db now id req := by
  have h2 : db.rows.find? (fun r => r.id == id) = some r0 := h
  have hne : ¬db.rows.countP (fun r => r.id == id) = 0 := by
    intro h0
    rw [(countP_eq_zero_iff_find?_none db.rows id).mp h0] at h2
    exact Option.noConfusion h2
  have hmem : (r0.id == id) = true :=
    @List.find?_some Row (fun r => r.id == id) r0 db.rows h2
  have hfind2 : (updatedRows db now id req).find? (fun r => r.id == id)
      = some (applyUpdate req now r0) := by
    unfold updatedRows
    rw [find?_map_ite db.rows id (applyUpdate req now) (applyUpdate_id req now), h2]
    show some (if (r0.id == id) = true then applyUpdate req now r0 else r0) = _
    rw [if_pos hmem]
  have heq : UpdateTodo db now id req
      = (GetTodo { db with rows := updatedRows db now id req } id,
          { db with rows := updatedRows db now id req }) := by
    unfold UpdateTodo
    rw [if_neg hc, if_neg hne]
  rw [heq]
  exact ⟨hfind2, GetTodo_eq_ok _ id _ hfind2, rfl⟩

/-- C1: a successful `Update(id, partialFields)` writes only the
explicitly present fields; each absent field keeps its prior value,
each present field (including one set to the empty string) is written
with the supplied value, and `created_at` is untouched. -/
theorem C1_partial_update_frame (db : DB) (now : String) (id : Int)
    (req : UpdateTodoRequest) (r0 : Row)
    (h : findRow db id = some r0) :
    ∃ r1, findRow (UpdateTodo db now id req).2 id = some r1
      ∧ (UpdateTodo db now id req).1 = .ok (rowToTodo r1)
      ∧ (req.title = none → r1.title = r0.title)
      ∧ (∀ v, req.title = some v → r1.title = v)
      ∧ (req.description = none → r1.description = r0.description)
      ∧ (∀ v, req.description = some v → r1.description = v)
      ∧ (req.status = none → r1.status = r0.status)
      ∧ (∀ v, req.status = some v → r1.status = v)
      ∧ (req.category = none → r1.category = r0.category)
      ∧ (∀ v, req.category = some v → r1.category = v)
      ∧ (req.progressPercent = none → r1.progress_percent = r0.progress_percent)
      ∧ (∀ v, req.progressPercent = some v → r1.progress_percent = v)
      ∧ r1.created_at = r0.created_at := by
  by_cases hc : updateSetClauses req = []
  · have hreq := (updateSetClauses_eq_nil_iff req).mp hc
    subst hreq
    have hup : UpdateTodo db now id ⟨none, none, none, none, none⟩
        = (GetTodo db id, db) := rfl
    exact ⟨r0, by rw [hup]; exact h, by rw [hup]; exact GetTodo_eq_ok db id r0 h,
      fun _ => rfl, fun v hv => Option.noConfusion hv,
      fun _ => rfl, fun v hv => Option.noConfusion hv,
      fun _ => rfl, fun v hv => Option.noConfusion hv,
      fun _ => rfl, fun v hv => Option.noConfusion hv,
      fun _ => rfl, fun v hv => Option.noConfusion hv, rfl⟩
  · obtain ⟨h1, h2, _⟩ := UpdateTodo_found db now id req r0 h hc
    refine ⟨applyUpdate req now r0, h1, h2, ?_, ?_, ?_, ?_, ?_, ?_, ?_, ?_, ?_, ?_, rfl⟩
    · intro hv; simp [applyUpdate, hv]
    · intro v hv; simp [applyUpdate, hv]
    · intro hv; simp [applyUpdate, hv]
    · intro v hv; simp [applyUpdate, hv]
    · intro hv; simp [applyUpdate, hv]
    · intro v hv; simp [applyUpdate, hv]
    · intro hv; simp [applyUpdate, hv]
    · intro v hv; simp [applyUpdate, hv]
    · intro hv; simp [applyUpdate, hv]
    · intro v hv; simp [applyUpdate, hv]

theorem C1_partial_update_frame_witness :
    findRow ⟨[⟨1, "a", "b", "pending", "work", 10, "x", "y"⟩], 1⟩ 1
        = some ⟨1, "a", "b", "pending", "work", 10, "x", "y"⟩
    ∧ ∃ r1,
        findRow (UpdateTodo ⟨[⟨1, "a", "b", "pending", "work", 10, "x", "y"⟩], 1⟩
            ("2026-01-01T00:00:00Z") 1 ⟨some (""), none, none, none, some 50⟩).2 1
          = some r1
        ∧ (UpdateTodo ⟨[⟨1, "a", "b", "pending", "work", 10, "x", "y"⟩], 1⟩
            ("2026-01-01T00:00:00Z") 1 ⟨some (""), none, none, none, some 50⟩).1
          = .ok (rowToTodo r1)
        ∧ ((⟨some (""), none, none, none, some 50⟩ : UpdateTodoRequest).title = none →
            r1.title = "a")
        ∧ (∀ v, (⟨some (""), none, none, none, some 50⟩ : UpdateTodoRequest).title = some v →
            r1.title = v)
        ∧ ((⟨some (""), none, none, none, some 50⟩ : UpdateTodoRequest).description = none →
            r1.description = "b")
        ∧ (∀ v, (⟨some (""), none, none, none, some 50⟩ : UpdateTodoRequest).description = some v →
            r1.description = v)
        ∧ ((⟨some (""), none, none, none, some 50⟩ : UpdateTodoRequest).status = none →
            r1.status = "pending")
        ∧ (∀ v, (⟨some (""), none, none, none, some 50⟩ : UpdateTodoRequest).status = some v →
            r1.status = v)
        ∧ ((⟨some (""), none, none, none, some 50⟩ : UpdateTodoRequest).category = none →
            r1.category = "work")
        ∧ (∀ v, (⟨some (""), none, none, none, some 50⟩ : UpdateTodoRequest).category = some v →
            r1.category = v)
        ∧ ((⟨some (""), none, none, none, some 50⟩ : UpdateTodoRequest).progressPercent = none →
            r1.progress_percent = 10)
        ∧ (∀ v, (⟨some (""), none, none, none, some 50⟩ : UpdateTodoRequest).progressPercent = some v →
            r1.progress_percent = v)
        ∧ r1.created_at = "x" :=
  ⟨rfl, C1_partial_update_frame ⟨[⟨1, "a", "b", "pending", "work", 10, "x", "y"⟩], 1⟩
    ("2026-01-01T00:00:00Z") 1 ⟨some (""), none, none, none, some 50⟩
    ⟨1, "a", "b", "pending", "work", 10, "x", "y"⟩ rfl⟩

/-- C3: on a missing id, `Get`, `Update` and `Delete` all fail with
`NotFound` (for `Update`/`Delete` because the affected-row count is
zero), and the stored state is unchanged on failure. -/
theorem C3_not_found_propagation (db : DB) (now : String) (id : Int)
    (req : UpdateTodoRequest) (h : findRow db id = none) :
    GetTodo db id = .error .notFound
    ∧ UpdateTodo db now id req = (.error .notFound, db)
    ∧ DeleteTodo db id = (.error .notFound, db) := by
  have h2 : db.rows.find? (fun r => r.id == id) = none := h
  have hcount : db.rows.countP (fun r => r.id == id) = 0 :=
    (countP_eq_zero_iff_find?_none db.rows id).mpr h2
  have hall : ∀ r ∈ db.rows, (r.id == id) = false := by
    intro r hr
    have h3 := List.find?_eq_none.mp h2 r hr
    simpa using h3
  have hget : GetTodo db id = .error .notFound := GetTodo_eq_notFound db id h2
  refine ⟨hget, ?_, ?_⟩
  · unfold UpdateTodo
    by_cases hc : updateSetClauses req = []
    · rw [if_pos hc, hget]
    · rw [if_neg hc, if_pos hcount]
      have hrows : updatedRows db now id req = db.rows :=
        map_ite_eq_self db.rows id (applyUpdate req now) hall
      rw [hrows]
  · unfold DeleteTodo
    rw [if_pos hcount, filter_ne_eq_self db.rows id hall]

theorem C3_not_found_propagation_witness :
    findRow ⟨[⟨1, "a", "b", "pending", "work", 10, "x", "y"⟩], 1⟩ 999999 = none
    ∧ (GetTodo ⟨[⟨1, "a", "b", "pending", "work", 10, "x", "y"⟩], 1⟩ 999999
        = .error .notFound
      ∧ UpdateTodo ⟨[⟨1, "a", "b", "pending", "work", 10, "x", "y"⟩], 1⟩
          ("2026-01-01T00:00:00Z") 999999 ⟨some ("t"), none, none, none, none⟩
        = (.error .notFound, ⟨[⟨1, "a", "b", "pending", "work", 10, "x", "y"⟩], 1⟩)
      ∧ DeleteTodo ⟨[⟨1, "a", "b", "pending", "work", 10, "x", "y"⟩], 1⟩ 999999
        = (.error .notFound, ⟨[⟨1, "a", "b", "pending", "work", 10, "x", "y"⟩], 1⟩)) :=
  ⟨rfl, C3_not_found_propagation ⟨[⟨1, "a", "b", "pending", "work", 10, "x", "y"⟩], 1⟩
    ("2026-01-01T00:00:00Z") 999999 ⟨some ("t"), none, none, none, none⟩ rfl⟩

/-- C6: `Update(id, {})` is a pure re-read on an unchanged store (so
`updated_at` is unchanged), while an update supplying at least one
field refreshes `updated_at` on the target row unconditionally. -/
theorem C6_noop_update_and_touch (db : DB) (now : String) (id : Int)
    (req : UpdateTodoRequest) (r0 : Row) :
    (req = ⟨none, none, none, none, none⟩ →
      UpdateTodo db now id req = (GetTodo db id, db))
    ∧ (findRow db id = some r0 → updateSetClauses req ≠ [] →
        ∃ r1, findRow (UpdateTodo db now id req).2 id = some r1
          ∧ r1.updated_at = now
          ∧ (UpdateTodo db now id req).1 = .ok (rowToTodo r1)) := by
  constructor
  · intro hreq
    subst hreq
    rfl
  · intro h hc
    obtain ⟨h1, h2, _⟩ := UpdateTodo_found db now id req r0 h hc
    exact ⟨applyUpdate req now r0, h1, rfl, h2⟩

theorem C6_noop_update_and_touch_witness :
    ((⟨none, none, none, none, none⟩ : UpdateTodoRequest)
        = ⟨none, none, none, none, none⟩ →
      UpdateTodo ⟨[⟨1, "a", "b", "pending", "work", 10, "x", "y"⟩], 1⟩
          ("2026-01-01T00:00:00Z") 1 ⟨none, none, none, none, none⟩
        = (GetTodo ⟨[⟨1, "a", "b", "pending", "work", 10, "x", "y"⟩], 1⟩ 1,
            ⟨[⟨1, "a", "b", "pending", "work", 10, "x", "y"⟩], 1⟩))
    ∧ (findRow ⟨[⟨1, "a", "b", "pending", "work", 10, "x", "y"⟩], 1⟩ 1
          = some ⟨1, "a", "b", "pending", "work", 10, "x", "y"⟩ →
        updateSetClauses (⟨none, none, none, none, none⟩ : UpdateTodoRequest) ≠ [] →
        ∃ r1,
          findRow (UpdateTodo ⟨[⟨1, "a", "b", "pending", "work", 10, "x", "y"⟩], 1⟩
              ("2026-01-01T00:00:00Z") 1 ⟨none, none, none, none, none⟩).2 1
            = some r1
          ∧ r1.updated_at = "2026-01-01T00:00:00Z"
          ∧ (UpdateTodo ⟨[⟨1, "a", "b", "pending", "work", 10, "x", "y"⟩], 1⟩
              ("2026-01-01T00:00:00Z") 1 ⟨none, none, none, none, none⟩).1
            = .ok (rowToTodo r1)) :=
  C6_noop_update_and_touch ⟨[⟨1, "a", "b", "pending", "work", 10, "x", "y"⟩], 1⟩
    ("2026-01-01T00:00:00Z") 1 ⟨none, none, none, none, none⟩
    ⟨1, "a", "b", "pending", "work", 10, "x", "y"⟩

/-- C10: with zero supplied fields and a missing id, `Update` still
fails with `NotFound`, but through the re-read path (`GetTodo`) rather
than an affected-row count, since no write statement is issued. -/
theorem C10_noop_update_not_found (db : DB) (now : String) (id : Int)
    (h : findRow db id = none) :
    UpdateTodo db now id ⟨none, none, none, none, none⟩ = (GetTodo db id, db)
    ∧ GetTodo db id = .error .notFound :=
  ⟨rfl, GetTodo_eq_notFound db id h⟩

theorem C10_noop_update_not_found_witness :
    findRow ⟨[⟨1, "a", "b", "pending", "work", 10, "x", "y"⟩], 1⟩ 999999 = none
    ∧ (UpdateTodo ⟨[⟨1, "a", "b", "pending", "work", 10, "x", "y"⟩], 1⟩
          ("2026-01-01T00:00:00Z") 999999 ⟨none, none, none, none, none⟩
        = (GetTodo ⟨[⟨1, "a", "b", "pending", "work", 10, "x", "y"⟩], 1⟩ 999999,
            ⟨[⟨1, "a", "b", "pending", "work", 10, "x", "y"⟩], 1⟩)
      ∧ GetTodo ⟨[⟨1, "a", "b", "pending", "work", 10, "x", "y"⟩], 1⟩ 999999
        = .error .notFound) :=
  ⟨rfl, C10_noop_update_not_found ⟨[⟨1, "a", "b", "pending", "work", 10, "x", "y"⟩], 1⟩
    ("2026-01-01T00:00:00Z") 999999 rfl⟩

/-- Store invariant backing `LastInsertId`: every live row id is at
most the AUTOINCREMENT counter. -/
def WF (db : DB) : Prop := ∀ r ∈ db.rows, r.id ≤ db.seq

/-- A freshly inserted row (id `seq + 1`) is found by the re-read. -/
theorem find?_append_fresh (db : DB) (row : Row)
    (hwf : WF db) (hid : row.id = db.seq + 1) :
    (db.rows ++ [row]).find? (fun r => r.id == db.seq + 1) = some row := by
  rw [List.find?_append]
  have h1 : db.rows.find? (fun r => r.id == db.seq + 1) = none := by
    rw [List.find?_eq_none]
    intro r hr hbeq
    have hle := hwf r hr
    have heq : r.id = db.seq + 1 := by
      have hb : (r.id == db.seq + 1) = true := by simpa using hbeq
      exact eq_of_beq hb
    omega
  rw [h1]
  show ([row].find? fun r => r.id == db.seq + 1) = some row
  have hb : (row.id == db.seq + 1) = true := by rw [hid]; exact beq_self_eq_true _
  simp [List.find?, hb]

/-- C4: `Create` applies the documented defaults to unsupplied fields,
the created record has `created_at = updated_at`, and the returned
record is the row re-read from the post-insert store at the
store-assigned id `seq + 1`, not an echo of the input. -/
theorem C4_create_defaults_and_reread (db : DB) (now : String)
    (req : CreateTodoRequest) (hwf : WF db) :
    ∃ t : Todo, (CreateTodo db now req).1 = .ok t
      ∧ (CreateTodo db now req).1 = GetTodo (CreateTodo db now req).2 t.id
      ∧ t.id = db.seq + 1
      ∧ (req.status = "" → t.status = StatusPending)
      ∧ (req.category = "" → t.category = CategoryPersonal)
      ∧ (req.progressPercent = none → t.progressPercent = 0)
      ∧ t.createdAt = t.updatedAt := by
  have hfind : ((db.rows ++
      [(⟨db.seq + 1, req.title, req.description,
          if req.status != "" then req.status else StatusPending,
          if req.category != "" then req.category else CategoryPersonal,
          match req.progressPercent with | some p => p | none => 0,
          now, now⟩ : Row)]).find? (fun r => r.id == db.seq + 1)) = some
        (⟨db.seq + 1, req.title, req.description,
          if req.status != "" then req.status else StatusPending,
          if req.category != "" then req.category else CategoryPersonal,
          match req.progressPercent with | some p => p | none => 0,
          now, now⟩ : Row) :=
    find?_append_fresh db _ hwf rfl
  refine ⟨rowToTodo (⟨db.seq + 1, req.title, req.description,
      if req.status != "" then req.status else StatusPending,
      if req.category != "" then req.category else CategoryPersonal,
      match req.progressPercent with | some p => p | none => 0,
      now, now⟩ : Row), ?_, ?_, rfl, ?_, ?_, ?_, rfl⟩
  · show GetTodo _ (db.seq + 1) = _
    exact GetTodo_eq_ok _ _ _ hfind
  · rfl
  · intro hs
    show (if req.status != "" then req.status else StatusPending) = StatusPending
    rw [hs]
    rfl
  · intro hc
    show (if req.category != "" then req.category else CategoryPersonal) = CategoryPersonal
    rw [hc]
    rfl
  · intro hp
    show ((match req.progressPercent with | some p => p | none => 0) : Int) = (0 : Int)
    rw [hp]

theorem C4_create_defaults_and_reread_witness :
    WF ⟨[], 0⟩
    ∧ ∃ t : Todo,
        (CreateTodo ⟨[], 0⟩ ("2026-01-01T00:00:00Z") ⟨"Buy milk", "", "", "", none⟩).1 = .ok t
        ∧ (CreateTodo ⟨[], 0⟩ ("2026-01-01T00:00:00Z") ⟨"Buy milk", "", "", "", none⟩).1
            = GetTodo (CreateTodo ⟨[], 0⟩ ("2026-01-01T00:00:00Z")
                ⟨"Buy milk", "", "", "", none⟩).2 t.id
        ∧ t.id = (0 : Int) + 1
        ∧ ((⟨"Buy milk", "", "", "", none⟩ : CreateTodoRequest).status = "" →
            t.status = StatusPending)
        ∧ ((⟨"Buy milk", "", "", "", none⟩ : CreateTodoRequest).category = "" →
            t.category = CategoryPersonal)
        ∧ ((⟨"Buy milk", "", "", "", none⟩ : CreateTodoRequest).progressPercent = none →
            t.progressPercent = 0)
        ∧ t.createdAt = t.updatedAt :=
  ⟨fun r hr => absurd hr (List.not_mem_nil r),
    C4_create_defaults_and_reread ⟨[], 0⟩ ("2026-01-01T00:00:00Z")
      ⟨"Buy milk", "", "", "", none⟩ (fun r hr => absurd hr (List.not_mem_nil r))⟩

/-- C8: a stored row with an unparsable timestamp text still reads back
successfully (via `Get` or `List`): the bad timestamp becomes the zero
timestamp (`none`) and every other field is returned normally. -/
theorem C8_timestamp_leniency (db : DB) (id : Int) (r : Row)
    (h : findRow db id = some r) :
    GetTodo db id = .ok (rowToTodo r)
    ∧ (isRFC3339 r.created_at = false → (rowToTodo r).createdAt = none)
    ∧ (isRFC3339 r.updated_at = false → (rowToTodo r).updatedAt = none)
    ∧ (rowToTodo r).id = r.id
    ∧ (rowToTodo r).title = r.title
    ∧ (rowToTodo r).description = r.description
    ∧ (rowToTodo r).status = r.status
    ∧ (rowToTodo r).category = r.category
    ∧ (rowToTodo r).progressPercent = r.progress_percent
    ∧ (∀ status category, rowMatches status category r = true →
        rowToTodo r ∈ ListTodos db status category) := by
  refine ⟨GetTodo_eq_ok db id r h, ?_, ?_, rfl, rfl, rfl, rfl, rfl, rfl, ?_⟩
  · intro hbad
    show parseTimeRFC3339 r.created_at = none
    simp [parseTimeRFC3339, hbad]
  · intro hbad
    show parseTimeRFC3339 r.updated_at = none
    simp [parseTimeRFC3339, hbad]
  · intro status category hm
    rw [ListTodos_eq_map]
    refine List.mem_map.mpr ⟨r, ?_, rfl⟩
    show r ∈ List.insertionSort rowLe (db.rows.filter (rowMatches status category))
    rw [List.mem_insertionSort]
    exact List.mem_filter.mpr
      ⟨List.mem_of_find?_eq_some (show db.rows.find? (fun x => x.id == id) = some r from h), hm⟩

theorem C8_timestamp_leniency_witness :
    findRow ⟨[⟨1, "a", "b", "pending", "work", 10, "garbage", "2026-01-01T00:00:00Z"⟩], 1⟩ 1
        = some ⟨1, "a", "b", "pending", "work", 10, "garbage", "2026-01-01T00:00:00Z"⟩
    ∧ (GetTodo ⟨[⟨1, "a", "b", "pending", "work", 10, "garbage", "2026-01-01T00:00:00Z"⟩], 1⟩ 1
        = .ok (rowToTodo ⟨1, "a", "b", "pending", "work", 10, "garbage", "2026-01-01T00:00:00Z"⟩)
      ∧ (isRFC3339 "garbage" = false →
          (rowToTodo ⟨1, "a", "b", "pending", "work", 10, "garbage", "2026-01-01T00:00:00Z"⟩).createdAt
            = none)
      ∧ (isRFC3339 "2026-01-01T00:00:00Z" = false →
          (rowToTodo ⟨1, "a", "b", "pending", "work", 10, "garbage", "2026-01-01T00:00:00Z"⟩).updatedAt
            = none)
      ∧ (rowToTodo ⟨1, "a", "b", "pending", "work", 10, "garbage", "2026-01-01T00:00:00Z"⟩).id = 1
      ∧ (rowToTodo ⟨1, "a", "b", "pending", "work", 10, "garbage", "2026-01-01T00:00:00Z"⟩).title = "a"
      ∧ (rowToTodo ⟨1, "a", "b", "pending", "work", 10, "garbage", "2026-01-01T00:00:00Z"⟩).description = "b"
      ∧ (rowToTodo ⟨1, "a", "b", "pending", "work", 10, "garbage", "2026-01-01T00:00:00Z"⟩).status = "pending"
      ∧ (rowToTodo ⟨1, "a", "b", "pending", "work", 10, "garbage", "2026-01-01T00:00:00Z"⟩).category = "work"
      ∧ (rowToTodo ⟨1, "a", "b", "pending", "work", 10, "garbage", "2026-01-01T00:00:00Z"⟩).progressPercent = 10
      ∧ (∀ status category,
          rowMatches status category
              ⟨1, "a", "b", "pending", "work", 10, "garbage", "2026-01-01T00:00:00Z"⟩ = true →
          rowToTodo ⟨1, "a", "b", "pending", "work", 10, "garbage", "2026-01-01T00:00:00Z"⟩
            ∈ ListTodos ⟨[⟨1, "a", "b", "pending", "work", 10, "garbage", "2026-01-01T00:00:00Z"⟩], 1⟩
                status category)) :=
  ⟨rfl, C8_timestamp_leniency
    ⟨[⟨1, "a", "b", "pending", "work", 10, "garbage", "2026-01-01T00:00:00Z"⟩], 1⟩ 1
    ⟨1, "a", "b", "pending", "work", 10, "garbage", "2026-01-01T00:00:00Z"⟩ rfl⟩

/-- C9: in `Create`, absence of `status`/`category` is the empty string
(the Go zero value), so an explicit empty string receives the default
and a record can never be created with an empty enumeration value. -/
theorem C9_create_empty_is_absent (db : DB) (now : String) (req : CreateTodoRequest) :
    ∃ nr : Row, (CreateTodo db now req).2.rows = db.rows ++ [nr]
      ∧ (req.status = "" → nr.status = StatusPending)
      ∧ (req.category = "" → nr.category = CategoryPersonal)
      ∧ nr.status ≠ ""
      ∧ nr.category ≠ ""
      ∧ CreateTodo db now { req with status := "", category := "" }
          = CreateTodo db now { req with status := StatusPending, category := CategoryPersonal } := by
  refine ⟨⟨db.seq + 1, req.title, req.description,
      if req.status != "" then req.status else StatusPending,
      if req.category != "" then req.category else CategoryPersonal,
      match req.progressPercent with | some p => p | none => 0,
      now, now⟩, rfl, ?_, ?_, ?_, ?_, rfl⟩
  · intro hs
    show (if req.status != "" then req.status else StatusPending) = StatusPending
    rw [hs]
    rfl
  · intro hc
    show (if req.category != "" then req.category else CategoryPersonal) = CategoryPersonal
    rw [hc]
    rfl
  · show (if req.status != "" then req.status else StatusPending) ≠ ""
    by_cases hs : req.status = ""
    · rw [hs]
      intro hcon
      exact absurd hcon (by simp [StatusPending])
    · have hb : (req.status != "") = true := by simpa using hs
      rw [if_pos hb]
      exact hs
  · show (if req.category != "" then req.category else CategoryPersonal) ≠ ""
    by_cases hc : req.category = ""
    · rw [hc]
      intro hcon
      exact absurd hcon (by simp [CategoryPersonal])
    · have hb : (req.category != "") = true := by simpa using hc
      rw [if_pos hb]
      exact hc

theorem C9_create_empty_is_absent_witness :
    ∃ nr : Row,
      (CreateTodo ⟨[], 0⟩ ("2026-01-01T00:00:00Z") ⟨"T", "D", "", "", none⟩).2.rows
          = [] ++ [nr]
      ∧ ((⟨"T", "D", "", "", none⟩ : CreateTodoRequest).status = "" →
          nr.status = StatusPending)
      ∧ ((⟨"T", "D", "", "", none⟩ : CreateTodoRequest).category = "" →
          nr.category = CategoryPersonal)
      ∧ nr.status ≠ ""
      ∧ nr.category ≠ ""
      ∧ CreateTodo ⟨[], 0⟩ ("2026-01-01T00:00:00Z")
            { (⟨"T", "D", "", "", none⟩ : CreateTodoRequest) with status := "", category := "" }
          = CreateTodo ⟨[], 0⟩ ("2026-01-01T00:00:00Z")
              { (⟨"T", "D", "", "", none⟩ : CreateTodoRequest) with
                status := StatusPending, category := CategoryPersonal } :=
  C9_create_empty_is_absent ⟨[], 0⟩ ("2026-01-01T00:00:00Z") ⟨"T", "D", "", "", none⟩

/-- C5: `List` returns exactly the rows matching the conjunction of the
present filters (all rows when both are absent), mapped to records, in
strictly ascending id order, and the result is the empty sequence — a
real list, never a null value — when nothing matches. -/
theorem C5_list_filter_order_empty (db : DB) (status category : Option String)
    (hnodup : (db.rows.map (fun r => r.id)).Nodup) :
    List.Perm (ListTodos db status category)
        ((db.rows.filter (rowMatches status category)).map rowToTodo)
    ∧ (ListTodos db status category).Pairwise (fun a b => a.id < b.id)
    ∧ (db.rows.filter (rowMatches status category) = [] →
        ListTodos db status category = [])
    ∧ (∀ t, t ∈ ListTodos db status category
          ↔ ∃ r ∈ db.rows, rowMatches status category r = true ∧ t = rowToTodo r)
    ∧ List.Perm (ListTodos db none none) (db.rows.map rowToTodo) := by
  have hperm : List.Perm
      (List.insertionSort rowLe (db.rows.filter (rowMatches status category)))
      (db.rows.filter (rowMatches status category)) :=
    List.perm_insertionSort rowLe _
  have hsorted : List.Sorted rowLe
      (List.insertionSort rowLe (db.rows.filter (rowMatches status category))) :=
    List.sorted_insertionSort rowLe _
  have hsub : List.Sublist
      ((db.rows.filter (rowMatches status category)).map (fun r => r.id))
      (db.rows.map (fun r => r.id)) :=
    (List.filter_sublist db.rows).map (fun r => r.id)
  have hnodupf : ((db.rows.filter (rowMatches status category)).map (fun r => r.id)).Nodup :=
    List.Nodup.sublist hsub hnodup
  have hnodups :
      ((List.insertionSort rowLe (db.rows.filter (rowMatches status category))).map
          (fun r => r.id)).Nodup :=
    ((hperm.map (fun r => r.id)).nodup_iff).mpr hnodupf
  have hne : (List.insertionSort rowLe (db.rows.filter (rowMatches status category))).Pairwise
      (fun a b => a.id ≠ b.id) := List.pairwise_map.mp hnodups
  have hlt : (List.insertionSort rowLe (db.rows.filter (rowMatches status category))).Pairwise
      (fun a b => a.id < b.id) :=
    List.Pairwise.imp₂ (fun _ _ hle hn => lt_of_le_of_ne hle hn) hsorted hne
  refine ⟨?_, ?_, ?_, ?_, ?_⟩
  · rw [ListTodos_eq_map]
    exact hperm.map rowToTodo
  · rw [ListTodos_eq_map]
    exact List.pairwise_map.mpr hlt
  · intro hempty
    rw [ListTodos_eq_map]
    show (List.insertionSort rowLe (db.rows.filter (rowMatches status category))).map rowToTodo = []
    rw [hempty]
    rfl
  · intro t
    rw [ListTodos_eq_map]
    constructor
    · intro ht
      obtain ⟨r, hr, hrt⟩ := List.mem_map.mp ht
      have hr2 : r ∈ db.rows.filter (rowMatches status category) :=
        (List.mem_insertionSort rowLe).mp hr
      obtain ⟨hmem, hmatch⟩ := List.mem_filter.mp hr2
      exact ⟨r, hmem, hmatch, hrt.symm⟩
    · intro ⟨r, hmem, hmatch, hrt⟩
      refine List.mem_map.mpr ⟨r, ?_, hrt.symm⟩
      exact (List.mem_insertionSort rowLe).mpr (List.mem_filter.mpr ⟨hmem, hmatch⟩)
  · rw [ListTodos_eq_map]
    have hfil : db.rows.filter (rowMatches none none) = db.rows :=
      List.filter_eq_self.mpr (fun r _ => rfl)
    show List.Perm
        ((List.insertionSort rowLe (db.rows.filter (rowMatches none none))).map rowToTodo)
        (db.rows.map rowToTodo)
    rw [hfil]
    exact (List.perm_insertionSort rowLe db.rows).map rowToTodo

theorem C5_list_filter_order_empty_witness :
    ((⟨[⟨2, "b", "", "done", "work", 0, "x", "y"⟩,
        ⟨1, "a", "", "pending", "personal", 0, "x", "y"⟩], 2⟩ : DB).rows.map
        (fun r => r.id)).Nodup
    ∧ (List.Perm (ListTodos ⟨[⟨2, "b", "", "done", "work", 0, "x", "y"⟩,
          ⟨1, "a", "", "pending", "personal", 0, "x", "y"⟩], 2⟩
          (some ("pending")) (some ("personal")))
        (((⟨[⟨2, "b", "", "done", "work", 0, "x", "y"⟩,
              ⟨1, "a", "", "pending", "personal", 0, "x", "y"⟩], 2⟩ : DB).rows.filter
            (rowMatches (some ("pending")) (some ("personal")))).map rowToTodo)
      ∧ (ListTodos ⟨[⟨2, "b", "", "done", "work", 0, "x", "y"⟩,
            ⟨1, "a", "", "pending", "personal", 0, "x", "y"⟩], 2⟩
            (some ("pending")) (some ("personal"))).Pairwise (fun a b => a.id < b.id)
      ∧ ((⟨[⟨2, "b", "", "done", "work", 0, "x", "y"⟩,
            ⟨1, "a", "", "pending", "personal", 0, "x", "y"⟩], 2⟩ : DB).rows.filter
            (rowMatches (some ("pending")) (some ("personal"))) = [] →
          ListTodos ⟨[⟨2, "b", "", "done", "work", 0, "x", "y"⟩,
              ⟨1, "a", "", "pending", "personal", 0, "x", "y"⟩], 2⟩
            (some ("pending")) (some ("personal")) = [])
      ∧ (∀ t, t ∈ ListTodos ⟨[⟨2, "b", "", "done", "work", 0, "x", "y"⟩,
              ⟨1, "a", "", "pending", "personal", 0, "x", "y"⟩], 2⟩
              (some ("pending")) (some ("personal"))
            ↔ ∃ r ∈ (⟨[⟨2, "b", "", "done", "work", 0, "x", "y"⟩,
                ⟨1, "a", "", "pending", "personal", 0, "x", "y"⟩], 2⟩ : DB).rows,
                rowMatches (some ("pending")) (some ("personal")) r = true
                ∧ t = rowToTodo r)
      ∧ List.Perm (ListTodos ⟨[⟨2, "b", "", "done", "work", 0, "x", "y"⟩,
            ⟨1, "a", "", "pending", "personal", 0, "x", "y"⟩], 2⟩ none none)
          ((⟨[⟨2, "b", "", "done", "work", 0, "x", "y"⟩,
              ⟨1, "a", "", "pending", "personal", 0, "x", "y"⟩], 2⟩ : DB).rows.map rowToTodo)) :=
  ⟨by decide,
    C5_list_filter_order_empty ⟨[⟨2, "b", "", "done", "work", 0, "x", "y"⟩,
        ⟨1, "a", "", "pending", "personal", 0, "x", "y"⟩], 2⟩
      (some ("pending")) (some ("personal")) (by decide)⟩

/-- Presence mask of an update request: which optional fields are set. -/
def presenceMask (req : UpdateTodoRequest) : Bool × Bool × Bool × Bool × Bool :=
  (req.title.isSome, req.description.isSome, req.status.isSome,
    req.category.isSome, req.progressPercent.isSome)

/-- The UPDATE statement text as a function of the presence mask alone:
witnesses that field values are never interpolated into the text. -/
def updateQueryOfMask (m : Bool × Bool × Bool × Bool × Bool) : String :=
  "UPDATE todos SET "
    ++ String.intercalate (", ")
        (((if m.1 then ["title = ?"] else [])
            ++ (if m.2.1 then ["description = ?"] else [])
            ++ (if m.2.2.1 then ["status = ?"] else [])
            ++ (if m.2.2.2.1 then ["category = ?"] else [])
            ++ (if m.2.2.2.2 then ["progress_percent = ?"] else []))
          ++ [updatedAtClause])
    ++ " WHERE id = ?"

/-- The SELECT statement text as a function of the filter presence
alone: witnesses that filter values are never interpolated. -/
def listQueryOfMask (ms mc : Bool) : String :=
  let conds := (if ms then ["status = ?"] else []) ++ (if mc then ["category = ?"] else [])
  let q := listBaseQuery
  let q := if conds.length > 0 then q ++ " WHERE " ++ String.intercalate (" AND ") conds else q
  q ++ " ORDER BY id ASC"

/-- Correspondence between one SET clause and the positional argument
at the same index. -/
def updateClauseArgMatches (req : UpdateTodoRequest) : String × SqlArg → Prop
  | ("title = ?", SqlArg.str v) => req.title = some v
  | ("description = ?", SqlArg.str v) => req.description = some v
  | ("status = ?", SqlArg.str v) => req.status = some v
  | ("category = ?", SqlArg.str v) => req.category = some v
  | ("progress_percent = ?", SqlArg.int v) => req.progressPercent = some v
  | _ => False

/-- Correspondence between one WHERE condition and the positional
argument at the same index. -/
def listClauseArgMatches (status category : Option String) : String × SqlArg → Prop
  | ("status = ?", SqlArg.str v) => status = some v
  | ("category = ?", SqlArg.str v) => category = some v
  | _ => False

set_option maxRecDepth 100000 in
set_option maxHeartbeats 3200000 in
/-- Structural invariant of the UPDATE builder, for every combination
of present/absent fields. -/
theorem update_builder_invariant (req : UpdateTodoRequest) (id : Int) :
    countPlaceholders (updateQuery req) = (updateExecArgs req id).length
    ∧ (updateSetClauses req).length = (updateArgs req).length
    ∧ (∀ p ∈ (updateSetClauses req).zip (updateArgs req), updateClauseArgMatches req p)
    ∧ (∀ cl ∈ updateSetClauses req, countPlaceholders cl = 1)
    ∧ updateQuery req = updateQueryOfMask (presenceMask req) := by
  obtain ⟨t, d, s, c, pr⟩ := req
  cases t <;> cases d <;> cases s <;> cases c <;> cases pr <;>
    exact ⟨rfl, rfl,
      by simp [updateSetClauses, updateArgs, updateClauseArgMatches],
      by simp [updateSetClauses] <;> decide, rfl⟩

set_option maxRecDepth 100000 in
set_option maxHeartbeats 3200000 in
/-- Structural invariant of the List filter builder, for every
combination of present/absent filters. -/
theorem list_builder_invariant (status category : Option String) :
    countPlaceholders (listQuery status category) = (listArgs status category).length
    ∧ (listConditions status category).length = (listArgs status category).length
    ∧ (∀ p ∈ (listConditions status category).zip (listArgs status category),
        listClauseArgMatches status category p)
    ∧ (∀ cl ∈ listConditions status category, countPlaceholders cl = 1)
    ∧ listQuery status category = listQueryOfMask status.isSome category.isSome := by
  cases status <;> cases category <;>
    exact ⟨rfl, rfl,
      by simp [listConditions, listArgs, listClauseArgMatches],
      by simp [listConditions] <;> decide, rfl⟩

/-- C2: for every combination of present/absent filters (List) and
fields (Update), the built statement's placeholder count equals the
argument count, the i-th placeholder corresponds to the i-th argument
(each clause holds exactly one placeholder and is zipped with the
argument for the same field), and the statement text depends only on
the presence mask — values are passed positionally, never interpolated. -/
theorem C2_placeholder_argument_alignment (req : UpdateTodoRequest) (id : Int)
    (status category : Option String) :
    (countPlaceholders (updateQuery req) = (updateExecArgs req id).length
      ∧ (updateSetClauses req).length = (updateArgs req).length
      ∧ (∀ p ∈ (updateSetClauses req).zip (updateArgs req), updateClauseArgMatches req p)
      ∧ (∀ cl ∈ updateSetClauses req, countPlaceholders cl = 1)
      ∧ updateQuery req = updateQueryOfMask (presenceMask req))
    ∧ (countPlaceholders (listQuery status category) = (listArgs status category).length
      ∧ (listConditions status category).length = (listArgs status category).length
      ∧ (∀ p ∈ (listConditions status category).zip (listArgs status category),
          listClauseArgMatches status category p)
      ∧ (∀ cl ∈ listConditions status category, countPlaceholders cl = 1)
      ∧ listQuery status category = listQueryOfMask status.isSome category.isSome) :=
  ⟨update_builder_invariant req id, list_builder_invariant status category⟩

theorem C2_placeholder_argument_alignment_witness :
    (countPlaceholders (updateQuery ⟨some ("x"), none, some ("done"), none, some 5⟩)
        = (updateExecArgs ⟨some ("x"), none, some ("done"), none, some 5⟩ 9).length
      ∧ (updateSetClauses ⟨some ("x"), none, some ("done"), none, some 5⟩).length
          = (updateArgs ⟨some ("x"), none, some ("done"), none, some 5⟩).length
      ∧ (∀ p ∈ (updateSetClauses ⟨some ("x"), none, some ("done"), none, some 5⟩).zip
            (updateArgs ⟨some ("x"), none, some ("done"), none, some 5⟩),
          updateClauseArgMatches ⟨some ("x"), none, some ("done"), none, some 5⟩ p)
      ∧ (∀ cl ∈ updateSetClauses ⟨some ("x"), none, some ("done"), none, some 5⟩,
          countPlaceholders cl = 1)
      ∧ updateQuery ⟨some ("x"), none, some ("done"), none, some 5⟩
          = updateQueryOfMask (presenceMask ⟨some ("x"), none, some ("done"), none, some 5⟩))
    ∧ (countPlaceholders (listQuery (some ("pending")) none)
        = (listArgs (some ("pending")) none).length
      ∧ (listConditions (some ("pending")) none).length
          = (listArgs (some ("pending")) none).length
      ∧ (∀ p ∈ (listConditions (some ("pending")) none).zip (listArgs (some ("pending")) none),
          listClauseArgMatches (some ("pending")) none p)
      ∧ (∀ cl ∈ listConditions (some ("pending")) none, countPlaceholders cl = 1)
      ∧ listQuery (some ("pending")) none
          = listQueryOfMask (some ("pending")).isSome (none : Option String).isSome) :=
  C2_placeholder_argument_alignment ⟨some ("x"), none, some ("done"), none, some 5⟩ 9
    (some ("pending")) none

theorem execCreateTable_tableExists (s : Schema) :
    (execCreateTable s).tableExists = true := by
  unfold execCreateTable
  by_cases h : s.tableExists = true
  · rw [if_pos h]; exact h
  · rw [if_neg h]

theorem execCreateTable_of_exists (s : Schema) (h : s.tableExists = true) :
    execCreateTable s = s := by
  unfold execCreateTable
  rw [if_pos h]

theorem execCreateIndex_of_mem (s : Schema) (n : String) (h : n ∈ s.indexes) :
    execCreateIndex s n = s := by
  unfold execCreateIndex
  rw [if_pos h]

theorem execCreateIndex_columns (s : Schema) (n : String) :
    (execCreateIndex s n).columns = s.columns := by
  unfold execCreateIndex
  by_cases h : n ∈ s.indexes
  · rw [if_pos h]
  · rw [if_neg h]

theorem execCreateIndex_tableExists (s : Schema) (n : String) :
    (execCreateIndex s n).tableExists = s.tableExists := by
  unfold execCreateIndex
  by_cases h : n ∈ s.indexes
  · rw [if_pos h]
  · rw [if_neg h]

theorem execCreateIndex_mem_self (s : Schema) (n : String) :
    n ∈ (execCreateIndex s n).indexes := by
  unfold execCreateIndex
  by_cases h : n ∈ s.indexes
  · rw [if_pos h]; exact h
  · rw [if_neg h]; simp

theorem execCreateIndex_mem_mono (s : Schema) (n m : String) (h : m ∈ s.indexes) :
    m ∈ (execCreateIndex s n).indexes := by
  unfold execCreateIndex
  by_cases hn : n ∈ s.indexes
  · rw [if_pos hn]; exact h
  · rw [if_neg hn]; exact List.mem_append_left _ h

theorem addCategoryColumn_of_present (s : Schema)
    (h : "category" ∈ s.columns.map (fun d => d.colName)) :
    addCategoryColumn s = .ok s := by
  unfold addCategoryColumn
  rw [if_pos h]

theorem addCategoryColumn_of_absent (s : Schema)
    (h : "category" ∉ s.columns.map (fun d => d.colName)) :
    addCategoryColumn s
      = .ok (execCreateIndex { s with columns := s.columns ++ [categoryColumn] }
          ("idx_todos_category")) := by
  unfold addCategoryColumn execAddColumn
  rw [if_neg h]
  have h2 : ¬categoryColumn.colName ∈ s.columns.map (fun d => d.colName) := h
  rw [if_neg h2]

/-- Effect of the additive step when the column is missing. -/
theorem addCategoryColumn_absent_spec (s : Schema)
    (h : "category" ∉ s.columns.map (fun d => d.colName)) :
    ∃ s4, addCategoryColumn s = .ok s4
      ∧ s4.columns = s.columns ++ [categoryColumn]
      ∧ s4.tableExists = s.tableExists
      ∧ "idx_todos_category" ∈ s4.indexes
      ∧ (∀ m ∈ s.indexes, m ∈ s4.indexes)
      ∧ "category" ∈ s4.columns.map (fun d => d.colName) := by
  refine ⟨_, addCategoryColumn_of_absent s h, ?_, ?_, ?_, ?_, ?_⟩
  · rw [execCreateIndex_columns]
  · rw [execCreateIndex_tableExists]
  · exact execCreateIndex_mem_self _ _
  · intro m hm
    exact execCreateIndex_mem_mono _ _ _ hm
  · rw [execCreateIndex_columns]
    simp [categoryColumn]

/-- A schema with the table, the status index and the category column
already in place is a fixed point of `Migrate`. -/
theorem Migrate_fixed (s : Schema)
    (ht : s.tableExists = true)
    (hi : "idx_todos_status" ∈ s.indexes)
    (hc : "category" ∈ s.columns.map (fun d => d.colName)) :
    Migrate s = .ok s := by
  show addCategoryColumn (execCreateIndex (execCreateTable s) ("idx_todos_status")) = .ok s
  rw [execCreateTable_of_exists s ht, execCreateIndex_of_mem s _ hi,
    addCategoryColumn_of_present s hc]

/-- Full behaviour of one `Migrate` run. -/
theorem Migrate_spec (s : Schema) :
    ∃ s4, Migrate s = .ok s4
      ∧ s4.tableExists = true
      ∧ "idx_todos_status" ∈ s4.indexes
      ∧ "category" ∈ s4.columns.map (fun d => d.colName)
      ∧ (s.tableExists = true → "category" ∈ s.columns.map (fun d => d.colName) →
          s4.columns = s.columns)
      ∧ (s.tableExists = true → "category" ∉ s.columns.map (fun d => d.colName) →
          s4.columns = s.columns ++ [categoryColumn]
          ∧ "idx_todos_category" ∈ s4.indexes) := by
  have hMig : Migrate s
      = addCategoryColumn (execCreateIndex (execCreateTable s) ("idx_todos_status")) := rfl
  have hT3 : (execCreateIndex (execCreateTable s) ("idx_todos_status")).tableExists = true := by
    rw [execCreateIndex_tableExists]
    exact execCreateTable_tableExists s
  have hI3 : "idx_todos_status"
      ∈ (execCreateIndex (execCreateTable s) ("idx_todos_status")).indexes :=
    execCreateIndex_mem_self _ _
  have hC3 : s.tableExists = true →
      (execCreateIndex (execCreateTable s) ("idx_todos_status")).columns = s.columns := by
    intro hT
    rw [execCreateIndex_columns, execCreateTable_of_exists s hT]
  by_cases hcat : "category" ∈ ((execCreateIndex (execCreateTable s)
      ("idx_todos_status")).columns.map (fun d => d.colName))
  · refine ⟨execCreateIndex (execCreateTable s) ("idx_todos_status"),
      by rw [hMig, addCategoryColumn_of_present _ hcat], hT3, hI3, hcat, ?_, ?_⟩
    · intro hT _
      exact hC3 hT
    · intro hT hC
      exfalso
      apply hC
      rw [← hC3 hT]
      exact hcat
  · obtain ⟨s4, ha, hcols, hte, hidxc, hmono, hc4⟩ :=
      addCategoryColumn_absent_spec _ hcat
    refine ⟨s4, by rw [hMig, ha], by rw [hte]; exact hT3, hmono _ hI3, hc4, ?_, ?_⟩
    · intro hT hC
      exfalso
      apply hcat
      rw [hC3 hT]
      exact hC
    · intro hT _
      exact ⟨by rw [hcols, hC3 hT], hidxc⟩

/-- C7: schema initialization is idempotent — a second `Migrate` run on
the resulting schema succeeds and changes nothing; the additive
category step inspects the live column catalog, is a no-op when the
column exists, and otherwise adds the column (default `personal`, enum
check) plus its supporting index. -/
theorem C7_migration_idempotent (s s2 : Schema) (h : Migrate s = .ok s2) :
    Migrate s2 = .ok s2
    ∧ "category" ∈ s2.columns.map (fun d => d.colName)
    ∧ (s.tableExists = true → "category" ∈ s.columns.map (fun d => d.colName) →
        s2.columns = s.columns)
    ∧ (s.tableExists = true → "category" ∉ s.columns.map (fun d => d.colName) →
        s2.columns = s.columns ++ [categoryColumn]
        ∧ "idx_todos_category" ∈ s2.indexes)
    ∧ categoryColumn.colDefault = some ("personal")
    ∧ categoryColumn.colEnumCheck = ["personal", "work", "other"] := by
  obtain ⟨s4, heq, ht, hi, hc, hpres, habs⟩ := Migrate_spec s
  rw [heq] at h
  have hs : s4 = s2 := Except.ok.inj h
  subst hs
  exact ⟨Migrate_fixed s4 ht hi hc, hc, hpres, habs, rfl, rfl⟩

theorem C7_migration_idempotent_witness :
    Migrate ⟨false, [], []⟩
        = .ok (⟨true, baseColumns ++ [categoryColumn],
            ["idx_todos_status", "idx_todos_category"]⟩ : Schema)
    ∧ (Migrate (⟨true, baseColumns ++ [categoryColumn],
          ["idx_todos_status", "idx_todos_category"]⟩ : Schema)
        = .ok (⟨true, baseColumns ++ [categoryColumn],
            ["idx_todos_status", "idx_todos_category"]⟩ : Schema)
      ∧ "category" ∈ ((⟨true, baseColumns ++ [categoryColumn],
          ["idx_todos_status", "idx_todos_category"]⟩ : Schema).columns.map
            (fun d => d.colName))
      ∧ ((⟨false, [], []⟩ : Schema).tableExists = true →
          "category" ∈ ((⟨false, [], []⟩ : Schema).columns.map (fun d => d.colName)) →
          (⟨true, baseColumns ++ [categoryColumn],
            ["idx_todos_status", "idx_todos_category"]⟩ : Schema).columns
            = (⟨false, [], []⟩ : Schema).columns)
      ∧ ((⟨false, [], []⟩ : Schema).tableExists = true →
          "category" ∉ ((⟨false, [], []⟩ : Schema).columns.map (fun d => d.colName)) →
          (⟨true, baseColumns ++ [categoryColumn],
            ["idx_todos_status", "idx_todos_category"]⟩ : Schema).columns
              = (⟨false, [], []⟩ : Schema).columns ++ [categoryColumn]
          ∧ "idx_todos_category" ∈ (⟨true, baseColumns ++ [categoryColumn],
              ["idx_todos_status", "idx_todos_category"]⟩ : Schema).indexes)
      ∧ categoryColumn.colDefault = some ("personal")
      ∧ categoryColumn.colEnumCheck = ["personal", "work", "other"]) :=
  ⟨rfl, C7_migration_idempotent ⟨false, [], []⟩
    ⟨true, baseColumns ++ [categoryColumn], ["idx_todos_status", "idx_todos_category"]⟩
    rfl⟩

end TodoService
